import Mathlib

/-
Verification development for the GROCERY_STORE_SYSTEM point-of-sale
repository.  The sale/inventory core (src/modules/inventory.py,
src/modules/sales.py, src/config.py) is shallowly embedded: the MySQL
tables touched by the core become an explicit `DBState` record, each
manager method becomes a Lean function from state to result-and-state,
and monetary arithmetic is modelled over `ℚ` (the Python code computes
in binary floats; the exact-rational model agrees with the float run on
every concrete input used below, all of which are exactly representable).
Python's built-in `round` rounds half to even, which `roundHalfEven`
reproduces.  Persistence failures (a `mysql.connector` error raised by a
single statement, each of which commits independently) are injected
through explicit boolean fault parameters.
-/

/-- Round a rational to the nearest integer, ties to the even integer:
the documented behaviour of Python's built-in `round`. -/
def roundHalfEven (x : ℚ) : ℤ :=
  let f : ℤ := x.floor
  let frac : ℚ := x - f
  if frac < 1/2 then f
  else if 1/2 < frac then f + 1
  else if f % 2 = 0 then f else f + 1

/-- Model of Python `round(x, 2)` on exact values: round `x * 100` half
to even, then divide back. -/
def roundTo2 (x : ℚ) : ℚ :=
  (roundHalfEven (x * 100) : ℚ) / 100

/-- Modelled from the spec's words, for comparison only: "standard
rounding" to 2 decimal places, i.e. ties rounded half up (away from the
floor), as in Mathlib's `round`. -/
def round_to_2_spec (x : ℚ) : ℚ :=
  ((x * 100 + 1/2).floor : ℚ) / 100

/-- The tax/discount settings of src/config.py, `BUSINESS_CONFIG`
(currency symbol omitted: no claim touches it). -/
structure BusinessConfig where
  tax_rate : ℚ
  discount_max : ℚ
  low_stock_threshold : ℕ
  deriving DecidableEq

/-- src/config.py `BUSINESS_CONFIG`: 12% VAT, maximum 50% discount. -/
def BUSINESS_CONFIG : BusinessConfig :=
  { tax_rate := 12/100, discount_max := 50/100, low_stock_threshold := 10 }

/-- src/modules/sales.py `CartItem`: a transient cart line.  The Python
class stores `subtotal` as a field kept equal to `unit_price * quantity`
by `__init__` and `update_quantity`; here it is the derived function
`CartItem.subtotal`. -/
structure CartItem where
  product_id : ℕ
  product_name : String
  barcode : String
  unit_price : ℚ
  quantity : ℤ
  deriving DecidableEq

/-- The maintained `subtotal` field of a cart line. -/
def CartItem.subtotal (c : CartItem) : ℚ := c.unit_price * c.quantity

/-- The raw (pre-rounding) cart subtotal:
`sum(item.subtotal for item in cart_items)`. -/
def cartSubtotal (cart_items : List CartItem) : ℚ :=
  (cart_items.map CartItem.subtotal).sum

/-- The dictionary returned by `SalesManager.calculate_totals`. -/
structure Totals where
  subtotal : ℚ
  discount_percent : ℚ
  discount_amount : ℚ
  tax_amount : ℚ
  total_amount : ℚ
  deriving DecidableEq

/-- src/modules/sales.py `SalesManager.calculate_totals` (lines 89-113),
with the module-level `config.BUSINESS_CONFIG` made an explicit
parameter. -/
def calculate_totals (cfg : BusinessConfig) (cart_items : List CartItem)
    (discount_percent : ℚ) : Totals :=
  let subtotal := cartSubtotal cart_items
  let discount_amount := subtotal * (discount_percent / 100)
  let amount_after_discount := subtotal - discount_amount
  let tax_amount := amount_after_discount * cfg.tax_rate
  let total_amount := amount_after_discount + tax_amount
  { subtotal := roundTo2 subtotal
    discount_percent := discount_percent
    discount_amount := roundTo2 discount_amount
    tax_amount := roundTo2 tax_amount
    total_amount := roundTo2 total_amount }

/-- A row of the `products` table, restricted to the columns the
sale/inventory core reads or writes (`product_id`, `stock_quantity`). -/
structure ProductRow where
  product_id : ℕ
  stock_quantity : ℤ
  deriving DecidableEq

/-- A row of the append-only `inventory_transactions` table, as written
by `InventoryManager.update_stock` (auto columns omitted). -/
structure TxRow where
  product_id : ℕ
  transaction_type : String
  quantity_change : ℤ
  previous_stock : ℤ
  new_stock : ℤ
  reference_id : Option ℕ
  notes : Option String
  user_id : Option ℕ
  deriving DecidableEq

/-- A row of the `sales` table as inserted by
`SalesManager.process_sale`; `sale_date` is the current date stamped by
the database default. -/
structure SaleRow where
  sale_id : ℕ
  sale_number : String
  customer_name : Option String
  customer_phone : Option String
  subtotal : ℚ
  tax_amount : ℚ
  discount_amount : ℚ
  total_amount : ℚ
  payment_method : String
  cashier_id : Option ℕ
  sale_date : String
  deriving DecidableEq

/-- A row of the `sale_items` table. -/
structure SaleItemRow where
  sale_id : ℕ
  product_id : ℕ
  quantity : ℤ
  unit_price : ℚ
  subtotal : ℚ
  deriving DecidableEq

/-- The persistent state the sale/inventory core touches: the four
tables plus the auto-increment counter that supplies `lastrowid` for
`sales` inserts.  Each SQL statement commits on its own
(src/database/db_connection.py `execute_query`), so the state after any
prefix of statements is durable. -/
structure DBState where
  products : List ProductRow
  transactions : List TxRow
  sales : List SaleRow
  sale_items : List SaleItemRow
  next_sale_id : ℕ
  deriving DecidableEq

/-- First matching row of `SELECT stock_quantity FROM products WHERE
product_id = %s`. -/
def findStock : List ProductRow → ℕ → Option ℤ
  | [], _ => none
  | p :: rest, pid =>
      if p.product_id = pid then some p.stock_quantity else findStock rest pid

/-- The `fetch_one` read both `update_stock` and
`check_stock_availability` perform. -/
def lookupStock (st : DBState) (pid : ℕ) : Option ℤ :=
  findStock st.products pid

/-- Effect of `UPDATE products SET stock_quantity = %s WHERE
product_id = %s` on the `products` table. -/
def setStockList (l : List ProductRow) (pid : ℕ) (v : ℤ) : List ProductRow :=
  l.map fun p => if p.product_id = pid then { p with stock_quantity := v } else p

/-- Effect of the stock `UPDATE` on the whole state. -/
def setStock (st : DBState) (pid : ℕ) (v : ℤ) : DBState :=
  { st with products := setStockList st.products pid v }

/-- Effect of the `INSERT INTO inventory_transactions ...` statement. -/
def appendTx (st : DBState) (t : TxRow) : DBState :=
  { st with transactions := st.transactions ++ [t] }

/-- Effect of the `INSERT INTO sales ...` statement; the returned
`lastrowid` is the fresh `sale_id`. -/
def insertSale (st : DBState) (r : SaleRow) : DBState :=
  { st with sales := st.sales ++ [r], next_sale_id := st.next_sale_id + 1 }

/-- Effect of the `INSERT INTO sale_items ...` statement. -/
def appendSaleItem (st : DBState) (r : SaleItemRow) : DBState :=
  { st with sale_items := st.sale_items ++ [r] }

/-- The `SELECT COUNT(*) FROM sales WHERE DATE(sale_date) = CURDATE()`
read of `generate_sale_number`, with the current date a parameter. -/
def countToday (st : DBState) (date_str : String) : ℕ :=
  (st.sales.filter fun s => s.sale_date = date_str).length

/-- src/modules/inventory.py `InventoryManager.update_stock` (lines
31-84).  The two fault flags inject a database error raised by,
respectively, the stock `UPDATE` and the ledger `INSERT`; either
exception is caught by the method's own handler, which returns `False`
(whatever committed before the failing statement stays committed). -/
def update_stock (st : DBState) (product_id : ℕ) (quantity_change : ℤ)
    (transaction_type : String) (user_id : Option ℕ)
    (reference_id : Option ℕ) (notes : Option String)
    (updateFails : Bool) (insertFails : Bool) : Bool × DBState :=
  match lookupStock st product_id with
  | none => (false, st)
  | some previous_stock =>
      let new_stock := previous_stock + quantity_change
      if new_stock < 0 then (false, st)
      else if updateFails then (false, st)
      else
        let st1 := setStock st product_id new_stock
        if insertFails then (false, st1)
        else
          (true, appendTx st1
            { product_id := product_id
              transaction_type := transaction_type
              quantity_change := quantity_change
              previous_stock := previous_stock
              new_stock := new_stock
              reference_id := reference_id
              notes := notes
              user_id := user_id })

/-- src/modules/inventory.py `InventoryManager.restock_product` (lines
86-103): `update_stock` with kind 'restock' and no reference id. -/
def restock_product (st : DBState) (product_id : ℕ) (quantity : ℤ)
    (user_id : Option ℕ) (notes : Option String) : Bool × DBState :=
  update_stock st product_id quantity "restock" user_id none notes false false

/-- src/modules/inventory.py `InventoryManager.adjust_stock` (lines
105-132): reads the current stock, then applies the difference to the
target as kind 'adjustment'. -/
def adjust_stock (st : DBState) (product_id : ℕ) (new_quantity : ℤ)
    (user_id : Option ℕ) (notes : Option String) : Bool × DBState :=
  match lookupStock st product_id with
  | none => (false, st)
  | some current_stock =>
      update_stock st product_id (new_quantity - current_stock) "adjustment"
        user_id none notes false false

/-- src/modules/inventory.py `InventoryManager.check_stock_availability`
(lines 235-256): `True` iff the product row exists and holds at least
the required quantity; a missing row yields `False`. -/
def check_stock_availability (st : DBState) (product_id : ℕ)
    (required_quantity : ℤ) : Bool :=
  match lookupStock st product_id with
  | some stock => required_quantity ≤ stock
  | none => false

/-- Python's format spec `04d` on a non-negative integer: left-pad the
decimal digits with zeros to at least 4 characters. -/
def pad4 (n : ℕ) : String :=
  let s := toString n
  String.mk (List.replicate (4 - s.length) '0') ++ s

/-- src/modules/sales.py `SalesManager.generate_sale_number` (lines
63-87).  `date_str` and `time_str` are the strftime `%Y%m%d` and
`%H%M%S` renderings of the current clock; `countFails` injects a
database error in the count query, which diverts to the fallback
branch. -/
def generate_sale_number (st : DBState) (date_str time_str : String)
    (countFails : Bool) : String :=
  if countFails then "SALE-" ++ date_str ++ "-" ++ time_str
  else "SALE-" ++ date_str ++ "-" ++ pad4 (countToday st date_str + 1)

/-- The stock-availability loop of `process_sale` (src/modules/sales.py
lines 137-143): the first cart line whose availability check fails, if
any. -/
def find_unavailable (st : DBState) : List CartItem → Option CartItem
  | [] => none
  | item :: rest =>
      if check_stock_availability st item.product_id item.quantity
      then find_unavailable st rest
      else some item

/-- Injected persistence failures for one `process_sale` run: whether
the count query, the header insert, the i-th sale-item insert, the i-th
stock `UPDATE` or the i-th ledger `INSERT` raises (indices follow cart
order). -/
structure Faults where
  countFails : Bool
  headerFails : Bool
  itemFails : ℕ → Bool
  stockUpdateFails : ℕ → Bool
  txInsertFails : ℕ → Bool

/-- A run in which every statement succeeds. -/
def noFaults : Faults :=
  { countFails := false
    headerFails := false
    itemFails := fun _ => false
    stockUpdateFails := fun _ => false
    txInsertFails := fun _ => false }

/-- The per-item loop of `process_sale` (src/modules/sales.py lines
170-185), from cart index `idx` on.  A raising sale-item insert aborts
the whole `try` block (first component `false`); the subsequent
`update_stock` call's boolean result is discarded by the source, so its
failures never abort the loop. -/
def sale_items_loop (sale_id : ℕ) (sale_number : String)
    (cashier_id : Option ℕ) (faults : Faults) :
    DBState → List CartItem → ℕ → Bool × DBState
  | st, [], _ => (true, st)
  | st, item :: rest, idx =>
      if faults.itemFails idx then (false, st)
      else
        let st1 := appendSaleItem st
          { sale_id := sale_id
            product_id := item.product_id
            quantity := item.quantity
            unit_price := item.unit_price
            subtotal := item.subtotal }
        let st2 := (update_stock st1 item.product_id (-item.quantity) "sale"
          cashier_id (some sale_id) (some ("Sale: " ++ sale_number))
          (faults.stockUpdateFails idx) (faults.txInsertFails idx)).2
        sale_items_loop sale_id sale_number cashier_id faults st2 rest (idx + 1)

/-- The `sales` row built by `process_sale` from the computed totals,
the generated sale number and the header `INSERT`'s parameters
(src/modules/sales.py lines 150-162). -/
def sale_header (st : DBState) (cart_items : List CartItem)
    (customer_name customer_phone : Option String) (discount_percent : ℚ)
    (payment_method : String) (cashier_id : Option ℕ) (date_str : String)
    (sale_number : String) : SaleRow :=
  let totals := calculate_totals BUSINESS_CONFIG cart_items discount_percent
  { sale_id := st.next_sale_id
    sale_number := sale_number
    customer_name := customer_name
    customer_phone := customer_phone
    subtotal := totals.subtotal
    tax_amount := totals.tax_amount
    discount_amount := totals.discount_amount
    total_amount := totals.total_amount
    payment_method := payment_method
    cashier_id := cashier_id
    sale_date := date_str }

/-- src/modules/sales.py `SalesManager.process_sale` (lines 115-191).
Returns the console message of the failing branch as the error value
(the Python method prints it and returns `None`), or the new sale id.
`date_str`/`time_str` render the current clock as in
`generate_sale_number`. -/
def process_sale (st : DBState) (cart_items : List CartItem)
    (customer_name customer_phone : Option String) (discount_percent : ℚ)
    (payment_method : String) (cashier_id : Option ℕ)
    (date_str time_str : String) (faults : Faults) :
    Except String ℕ × DBState :=
  if cart_items.isEmpty then (.error "Cart is empty", st)
  else
    match find_unavailable st cart_items with
    | some item =>
        (.error ("Insufficient stock for " ++ item.product_name), st)
    | none =>
        let sale_number := generate_sale_number st date_str time_str faults.countFails
        if faults.headerFails then (.error "Error processing sale", st)
        else
          let sale_id := st.next_sale_id
          let st1 := insertSale st
            (sale_header st cart_items customer_name customer_phone
              discount_percent payment_method cashier_id date_str sale_number)
          let r := sale_items_loop sale_id sale_number cashier_id faults st1 cart_items 0
          (if r.1 then .ok sale_id else .error "Error processing sale", r.2)

lemma findStock_setStockList (l : List ProductRow) (pid : ℕ) (v : ℤ) :
    findStock (setStockList l pid v) pid = (findStock l pid).map fun _ => v := by
  induction l with
  | nil => rfl
  | cons p rest ih =>
      by_cases hp : p.product_id = pid
      · simp [findStock, setStockList, hp]
      · simpa [findStock, setStockList, hp] using ih

lemma setStockList_idem (l : List ProductRow) (pid : ℕ) (v : ℤ) :
    setStockList (setStockList l pid v) pid v = setStockList l pid v := by
  unfold setStockList
  rw [List.map_map]
  apply List.map_congr_left
  intro p _
  by_cases hp : p.product_id = pid <;> simp [hp]

lemma update_stock_ok (st : DBState) (pid : ℕ) (d : ℤ) (ty : String)
    (u r : Option ℕ) (note : Option String) (s : ℤ)
    (hs : lookupStock st pid = some s) (hnn : 0 ≤ s + d) :
    update_stock st pid d ty u r note false false =
      (true,
        { st with
            products := setStockList st.products pid (s + d)
            transactions :=
              st.transactions ++ [⟨pid, ty, d, s, s + d, r, note, u⟩] }) := by
  unfold update_stock
  rw [hs]
  have hlt : ¬ s + d < 0 := not_lt.mpr hnn
  simp [hlt, setStock, appendTx]

lemma lookupStock_state_update (st : DBState) (pid : ℕ) (v : ℤ) (s : ℤ)
    (hs : lookupStock st pid = some s) (tx : List TxRow) :
    lookupStock
      { st with products := setStockList st.products pid v, transactions := tx }
      pid = some v := by
  unfold lookupStock at hs ⊢
  rw [findStock_setStockList, hs]
  rfl

lemma update_stock_sales (st : DBState) (pid : ℕ) (d : ℤ) (ty : String)
    (u r : Option ℕ) (note : Option String) (f1 f2 : Bool) :
    (update_stock st pid d ty u r note f1 f2).2.sales = st.sales := by
  unfold update_stock
  cases lookupStock st pid with
  | none => rfl
  | some s =>
      dsimp only
      split_ifs <;> simp [setStock, appendTx]

lemma find_unavailable_some (st : DBState) (cart : List CartItem)
    (item : CartItem) (hmem : item ∈ cart)
    (hbad : check_stock_availability st item.product_id item.quantity = false) :
    ∃ bad, find_unavailable st cart = some bad ∧ bad ∈ cart ∧
      check_stock_availability st bad.product_id bad.quantity = false := by
  induction cart with
  | nil => exact absurd hmem (List.not_mem_nil item)
  | cons hd tl ih =>
      by_cases hh : check_stock_availability st hd.product_id hd.quantity = true
      · have htl : item ∈ tl := by
          rcases List.mem_cons.mp hmem with he | ht
          · rw [he] at hbad; rw [hbad] at hh; exact absurd hh (by simp)
          · exact ht
        obtain ⟨bad, hfind, hmem', hb⟩ := ih htl
        exact ⟨bad, by simp [find_unavailable, hh, hfind],
          List.mem_cons_of_mem _ hmem', hb⟩
      · refine ⟨hd, by simp [find_unavailable, hh], List.mem_cons_self hd tl, ?_⟩
        simpa using hh

lemma sale_items_loop_sales (sid : ℕ) (sn : String) (cid : Option ℕ)
    (faults : Faults) (cart : List CartItem) :
    ∀ (st : DBState) (idx : ℕ),
      (sale_items_loop sid sn cid faults st cart idx).2.sales = st.sales := by
  induction cart with
  | nil => intro st idx; rfl
  | cons item rest ih =>
      intro st idx
      unfold sale_items_loop
      by_cases hf : faults.itemFails idx = true
      · simp [hf]
      · simp only [hf, Bool.false_eq_true, if_false]
        rw [ih]
        rw [update_stock_sales]
        rfl

lemma sale_items_loop_success (sid : ℕ) (sn : String) (cid : Option ℕ)
    (faults : Faults) (hnf : ∀ i, faults.itemFails i = false)
    (cart : List CartItem) :
    ∀ (st : DBState) (idx : ℕ),
      (sale_items_loop sid sn cid faults st cart idx).1 = true := by
  induction cart with
  | nil => intro st idx; rfl
  | cons item rest ih =>
      intro st idx
      unfold sale_items_loop
      simp only [hnf idx, Bool.false_eq_true, if_false]
      exact ih _ _

lemma sale_items_loop_abort (sid : ℕ) (sn : String) (cid : Option ℕ)
    (faults : Faults) (cart : List CartItem) :
    ∀ (k : ℕ) (st : DBState) (idx : ℕ),
      k < cart.length →
      (∀ i, i < k → faults.itemFails (idx + i) = false) →
      faults.itemFails (idx + k) = true →
      sale_items_loop sid sn cid faults st cart idx =
        (false, (sale_items_loop sid sn cid faults st (cart.take k) idx).2) := by
  induction cart with
  | nil =>
      intro k st idx hk
      exact absurd hk (by simp)
  | cons item rest ih =>
      intro k st idx hk hprev hfail
      cases k with
      | zero =>
          have h0 : faults.itemFails idx = true := by simpa using hfail
          unfold sale_items_loop
          simp [h0]
      | succ n =>
          have h0 : faults.itemFails idx = false := by
            simpa using hprev 0 (Nat.succ_pos n)
          have hstep :
              List.take (n + 1) (item :: rest) = item :: List.take n rest := rfl
          rw [hstep]
          unfold sale_items_loop
          simp only [h0, Bool.false_eq_true, if_false]
          apply ih n _ (idx + 1)
          · simpa using hk
          · intro i hi
            have := hprev (i + 1) (by omega)
            have harith : idx + (i + 1) = idx + 1 + i := by omega
            rwa [harith] at this
          · have harith : idx + (n + 1) = idx + 1 + n := by omega
            rwa [harith] at hfail

lemma ratFloor_eq_intFloor (q : ℚ) : q.floor = ⌊q⌋ :=
  (Rat.floor_def' q).trans Rat.floor_def.symm

lemma roundHalfEven_mono {x y : ℚ} (h : x ≤ y) :
    roundHalfEven x ≤ roundHalfEven y := by
  unfold roundHalfEven
  rw [ratFloor_eq_intFloor, ratFloor_eq_intFloor]
  dsimp only
  rcases lt_or_le ⌊x⌋ ⌊y⌋ with hf | hf
  · have hfx : x - (⌊x⌋ : ℚ) < 1 := by
      have := Int.lt_floor_add_one x
      push_cast at this ⊢
      linarith
    split_ifs <;> omega
  · have heq : ⌊x⌋ = ⌊y⌋ := le_antisymm (Int.floor_mono h) hf
    rw [heq]
    have hfr : x - (⌊y⌋ : ℚ) ≤ y - (⌊y⌋ : ℚ) := by linarith
    split_ifs <;> first | omega | linarith

lemma roundTo2_mono {x y : ℚ} (h : x ≤ y) : roundTo2 x ≤ roundTo2 y := by
  unfold roundTo2
  have h100 : x * 100 ≤ y * 100 := by linarith
  have := roundHalfEven_mono h100
  have hc : (roundHalfEven (x * 100) : ℚ) ≤ roundHalfEven (y * 100) := by
    exact_mod_cast this
  linarith

lemma roundTo2_zero : roundTo2 0 = 0 := by
  norm_num [roundTo2, roundHalfEven, Rat.floor_def']

/-- C1: for a product with current stock `s` and a delta `d` with
`s + d ≥ 0`, a fault-free `update_stock` call returns `True`, sets the
product's stock to `s + d`, and appends exactly one
`inventory_transactions` row with `previous_stock = s`,
`new_stock = s + d`, `quantity_change = d` and the given kind,
reference, note and user, touching nothing else. -/
theorem c1_update_stock_success (st : DBState) (pid : ℕ) (d : ℤ)
    (kind : String) (user reference : Option ℕ) (note : Option String)
    (s : ℤ) (hs : lookupStock st pid = some s) (hnn : 0 ≤ s + d) :
    (update_stock st pid d kind user reference note false false).1 = true ∧
    lookupStock
      (update_stock st pid d kind user reference note false false).2 pid =
      some (s + d) ∧
    (update_stock st pid d kind user reference note false false).2.transactions =
      st.transactions ++ [⟨pid, kind, d, s, s + d, reference, note, user⟩] ∧
    (update_stock st pid d kind user reference note false false).2.sales =
      st.sales ∧
    (update_stock st pid d kind user reference note false false).2.sale_items =
      st.sale_items := by
  rw [update_stock_ok st pid d kind user reference note s hs hnn]
  exact ⟨rfl, lookupStock_state_update st pid (s + d) s hs _, rfl, rfl, rfl⟩

def stW1 : DBState :=
  { products := [⟨1, 5⟩], transactions := [], sales := [], sale_items := [],
    next_sale_id := 1 }

/-- Witness for C1 at product 1 with stock 5 and delta 3. -/
theorem c1_witness :
    lookupStock stW1 1 = some 5 ∧ (0 : ℤ) ≤ 5 + 3 ∧
    ((update_stock stW1 1 3 "restock" (some 7) none (some "n") false false).1
        = true ∧
      lookupStock
        (update_stock stW1 1 3 "restock" (some 7) none (some "n") false false).2
        1 = some (5 + 3) ∧
      (update_stock stW1 1 3 "restock" (some 7) none
          (some "n") false false).2.transactions =
        stW1.transactions ++ [⟨1, "restock", 3, 5, 5 + 3, none, some "n", some 7⟩] ∧
      (update_stock stW1 1 3 "restock" (some 7) none
          (some "n") false false).2.sales = stW1.sales ∧
      (update_stock stW1 1 3 "restock" (some 7) none
          (some "n") false false).2.sale_items = stW1.sale_items) :=
  ⟨rfl, by decide,
    c1_update_stock_success stW1 1 3 "restock" (some 7) none (some "n") 5 rfl
      (by decide)⟩

/-- C2: when `s + d < 0`, `update_stock` returns `False` and the whole
state — product stock and ledger included — is unchanged (this holds for
any injected persistence faults, since the check precedes both writes; the
insufficient-stock message is printed to the console by the source). -/
theorem c2_update_stock_insufficient (st : DBState) (pid : ℕ) (d : ℤ)
    (kind : String) (user reference : Option ℕ) (note : Option String)
    (s : ℤ) (uF iF : Bool)
    (hs : lookupStock st pid = some s) (hneg : s + d < 0) :
    update_stock st pid d kind user reference note uF iF = (false, st) := by
  unfold update_stock
  rw [hs]
  simp [hneg]

/-- Witness for C2 at product 1 with stock 5 and delta -9. -/
theorem c2_witness :
    lookupStock stW1 1 = some 5 ∧ (5 : ℤ) + (-9) < 0 ∧
    update_stock stW1 1 (-9) "sale" none none none false false =
      (false, stW1) :=
  ⟨rfl, by decide,
    c2_update_stock_insufficient stW1 1 (-9) "sale" none none none 5
      false false rfl (by decide)⟩

lemma adjust_stock_ok (st : DBState) (pid : ℕ) (t s : ℤ)
    (user : Option ℕ) (note : Option String)
    (hs : lookupStock st pid = some s) (ht : 0 ≤ t) :
    adjust_stock st pid t user note =
      (true,
        { st with
            products := setStockList st.products pid t
            transactions :=
              st.transactions ++
                [⟨pid, "adjustment", t - s, s, t, none, note, user⟩] }) := by
  have e1 : s + (t - s) = t := by ring
  have h1 := update_stock_ok st pid (t - s) "adjustment" user none note s hs
    (by omega)
  rw [e1] at h1
  unfold adjust_stock
  rw [hs]
  exact h1

/-- C8: after `adjust_stock` to target `t ≥ 0` succeeds, a second call
with the same target succeeds again, computes delta `0`, leaves the
products table untouched, and still appends a zero-delta 'adjustment'
ledger row (zero-delta entries are recorded, not suppressed). -/
theorem c8_adjust_stock_idempotent (st : DBState) (pid : ℕ) (t : ℤ)
    (user : Option ℕ) (note : Option String) (s : ℤ)
    (hs : lookupStock st pid = some s) (ht : 0 ≤ t) :
    (adjust_stock st pid t user note).1 = true ∧
    lookupStock (adjust_stock st pid t user note).2 pid = some t ∧
    (adjust_stock (adjust_stock st pid t user note).2 pid t user note).1 =
      true ∧
    lookupStock
      (adjust_stock (adjust_stock st pid t user note).2 pid t user note).2
      pid = some t ∧
    (adjust_stock (adjust_stock st pid t user note).2 pid t user
        note).2.products = (adjust_stock st pid t user note).2.products ∧
    (adjust_stock (adjust_stock st pid t user note).2 pid t user
        note).2.transactions =
      (adjust_stock st pid t user note).2.transactions ++
        [⟨pid, "adjustment", 0, t, t, none, note, user⟩] := by
  have hadj1 := adjust_stock_ok st pid t s user note hs ht
  have hlook1 :
      lookupStock (adjust_stock st pid t user note).2 pid = some t := by
    rw [hadj1]
    exact lookupStock_state_update st pid t s hs _
  have hadj2 := adjust_stock_ok (adjust_stock st pid t user note).2 pid t t
    user note hlook1 ht
  have e3 : t - t = 0 := by ring
  rw [e3] at hadj2
  refine ⟨by rw [hadj1], hlook1, by rw [hadj2], ?_, ?_, by rw [hadj2]⟩
  · rw [hadj2]
    exact lookupStock_state_update (adjust_stock st pid t user note).2 pid t t
      hlook1 _
  · rw [hadj2, hadj1]
    exact setStockList_idem st.products pid t

/-- Witness for C8 at product 1 with stock 5 and target 9. -/
theorem c8_witness :
    lookupStock stW1 1 = some 5 ∧ (0 : ℤ) ≤ 9 ∧
    ((adjust_stock stW1 1 9 (some 7) none).1 = true ∧
      lookupStock (adjust_stock stW1 1 9 (some 7) none).2 1 = some 9 ∧
      (adjust_stock (adjust_stock stW1 1 9 (some 7) none).2 1 9
          (some 7) none).1 = true ∧
      lookupStock
        (adjust_stock (adjust_stock stW1 1 9 (some 7) none).2 1 9
            (some 7) none).2 1 = some 9 ∧
      (adjust_stock (adjust_stock stW1 1 9 (some 7) none).2 1 9
          (some 7) none).2.products =
        (adjust_stock stW1 1 9 (some 7) none).2.products ∧
      (adjust_stock (adjust_stock stW1 1 9 (some 7) none).2 1 9
          (some 7) none).2.transactions =
        (adjust_stock stW1 1 9 (some 7) none).2.transactions ++
          [⟨1, "adjustment", 0, 9, 9, none, none, some 7⟩]) :=
  ⟨rfl, by decide,
    c8_adjust_stock_idempotent stW1 1 9 (some 7) none 5 rfl (by decide)⟩

lemma calculate_totals_def (cfg : BusinessConfig) (cart : List CartItem)
    (dp : ℚ) :
    calculate_totals cfg cart dp =
      { subtotal := roundTo2 (cartSubtotal cart)
        discount_percent := dp
        discount_amount := roundTo2 (cartSubtotal cart * (dp / 100))
        tax_amount :=
          roundTo2 ((cartSubtotal cart - cartSubtotal cart * (dp / 100)) *
            cfg.tax_rate)
        total_amount :=
          roundTo2 ((cartSubtotal cart - cartSubtotal cart * (dp / 100)) +
            (cartSubtotal cart - cartSubtotal cart * (dp / 100)) *
              cfg.tax_rate) } := rfl

def cartTie : List CartItem := [⟨1, "Tie", "T1", 1/8, 1⟩]

/-- C3 counterexample: the claim says every monetary output is rounded
by standard rounding, but for the one-line cart priced 0.125 (exactly
representable in binary, so the float run agrees) the returned subtotal
is 0.12 — Python's `round` resolves the tie 12.5 to the even 12 — while
standard rounding of the same raw subtotal gives 0.13. -/
theorem c3_counterexample :
    (calculate_totals BUSINESS_CONFIG cartTie 0).subtotal = 12/100 ∧
    round_to_2_spec (cartSubtotal cartTie) = 13/100 ∧
    (calculate_totals BUSINESS_CONFIG cartTie 0).subtotal ≠
      round_to_2_spec (cartSubtotal cartTie) := by
  norm_num [calculate_totals_def, cartTie, cartSubtotal, CartItem.subtotal,
    roundTo2, roundHalfEven, round_to_2_spec, Rat.floor_def']

/-- C3 amended: `calculate_totals` returns the spec's formulas —
`subtotal = Σ unitPrice * quantity`, `discount = subtotal * dp / 100`,
`tax = (subtotal - discount) * tax_rate` (0.12 configured),
`total = taxable + tax` — with every monetary output rounded to 2
decimal places by round-half-to-even (Python's `round`), which differs
from standard rounding only at exact ties; the worked example
(10.00 x 2 and 5.00 x 1 with 10% discount) returns subtotal 25.00,
discount 2.50, tax 2.70, total 25.20. -/
theorem c3_calculate_totals (cfg : BusinessConfig) (cart : List CartItem)
    (dp : ℚ) :
    (calculate_totals cfg cart dp).subtotal =
      roundTo2 ((cart.map fun i => i.unit_price * (i.quantity : ℚ)).sum) ∧
    (calculate_totals cfg cart dp).discount_amount =
      roundTo2 ((cart.map fun i => i.unit_price * (i.quantity : ℚ)).sum *
        (dp / 100)) ∧
    (calculate_totals cfg cart dp).tax_amount =
      roundTo2 (((cart.map fun i => i.unit_price * (i.quantity : ℚ)).sum -
        (cart.map fun i => i.unit_price * (i.quantity : ℚ)).sum * (dp / 100)) *
        cfg.tax_rate) ∧
    (calculate_totals cfg cart dp).total_amount =
      roundTo2 (((cart.map fun i => i.unit_price * (i.quantity : ℚ)).sum -
        (cart.map fun i => i.unit_price * (i.quantity : ℚ)).sum * (dp / 100)) +
        ((cart.map fun i => i.unit_price * (i.quantity : ℚ)).sum -
          (cart.map fun i => i.unit_price * (i.quantity : ℚ)).sum * (dp / 100)) *
          cfg.tax_rate) ∧
    (calculate_totals cfg cart dp).discount_percent = dp ∧
    BUSINESS_CONFIG.tax_rate = 12/100 ∧
    calculate_totals BUSINESS_CONFIG
        [⟨1, "a", "b", 10, 2⟩, ⟨2, "c", "d", 5, 1⟩] 10 =
      ⟨25, 10, 5/2, 27/10, 126/5⟩ := by
  refine ⟨rfl, rfl, rfl, rfl, rfl, rfl, ?_⟩
  norm_num [calculate_totals_def, cartSubtotal, CartItem.subtotal, roundTo2,
    roundHalfEven, Rat.floor_def', BUSINESS_CONFIG, Totals.mk.injEq]

def cartC10 : List CartItem := [⟨1, "a", "b", 10, 2⟩, ⟨2, "c", "d", 5, 1⟩]

/-- C10 counterexample: for the 25.00 cart and discount percentage
100.000001 (greater than 100, positive subtotal), the returned
`discount_amount` is 25.00 — equal to, not exceeding, the subtotal —
and the returned `total_amount` is 0, not negative: the strict
claims fail on the rounded outputs. -/
theorem c10_counterexample :
    (100 : ℚ) < 100 + 1/1000000 ∧
    0 < cartSubtotal cartC10 ∧
    (calculate_totals BUSINESS_CONFIG cartC10 (100 + 1/1000000)).subtotal
      = 25 ∧
    (calculate_totals BUSINESS_CONFIG cartC10
      (100 + 1/1000000)).discount_amount = 25 ∧
    (calculate_totals BUSINESS_CONFIG cartC10
      (100 + 1/1000000)).total_amount = 0 := by
  norm_num [calculate_totals_def, cartC10, cartSubtotal, CartItem.subtotal,
    roundTo2, roundHalfEven, Rat.floor_def', BUSINESS_CONFIG]

/-- C10 amended: `calculate_totals` applies no bounds check to the
discount percentage and never consults `discount_max`: the result is
unchanged under any change to `discount_max`; for positive subtotal and
discount over 100 the raw (pre-rounding) discount strictly exceeds the
raw subtotal and the raw total is strictly negative, so the returned
discount is at least the returned subtotal and the returned total at
most 0 (equality possible within rounding distance of 100); a negative
discount percentage strictly increases the raw total over the
undiscounted one, so the returned total is at least the undiscounted
returned total. -/
theorem c10_no_discount_bounds (cart : List CartItem) (dp : ℚ)
    (cfg cfg' : BusinessConfig) :
    (cfg.tax_rate = cfg'.tax_rate →
      calculate_totals cfg cart dp = calculate_totals cfg' cart dp) ∧
    (0 < cartSubtotal cart → 100 < dp →
      cartSubtotal cart < cartSubtotal cart * (dp / 100) ∧
      (cartSubtotal cart - cartSubtotal cart * (dp / 100)) +
        (cartSubtotal cart - cartSubtotal cart * (dp / 100)) *
          BUSINESS_CONFIG.tax_rate < 0 ∧
      (calculate_totals BUSINESS_CONFIG cart dp).subtotal ≤
        (calculate_totals BUSINESS_CONFIG cart dp).discount_amount ∧
      (calculate_totals BUSINESS_CONFIG cart dp).total_amount ≤ 0) ∧
    (0 < cartSubtotal cart → dp < 0 →
      cartSubtotal cart + cartSubtotal cart * BUSINESS_CONFIG.tax_rate <
        (cartSubtotal cart - cartSubtotal cart * (dp / 100)) +
          (cartSubtotal cart - cartSubtotal cart * (dp / 100)) *
            BUSINESS_CONFIG.tax_rate ∧
      (calculate_totals BUSINESS_CONFIG cart 0).total_amount ≤
        (calculate_totals BUSINESS_CONFIG cart dp).total_amount) := by
  refine ⟨?_, ?_, ?_⟩
  · intro h
    rw [calculate_totals_def, calculate_totals_def, h]
  · intro hS hdp
    have hτ : BUSINESS_CONFIG.tax_rate = 12/100 := rfl
    have hSD : cartSubtotal cart < cartSubtotal cart * (dp / 100) := by
      nlinarith
    have htot : (cartSubtotal cart - cartSubtotal cart * (dp / 100)) +
        (cartSubtotal cart - cartSubtotal cart * (dp / 100)) *
          BUSINESS_CONFIG.tax_rate < 0 := by
      rw [hτ]
      linarith
    refine ⟨hSD, htot, ?_, ?_⟩
    · rw [calculate_totals_def]
      exact roundTo2_mono (le_of_lt hSD)
    · rw [calculate_totals_def]
      have := roundTo2_mono (le_of_lt htot)
      rwa [roundTo2_zero] at this
  · intro hS hdp
    have hτ : BUSINESS_CONFIG.tax_rate = 12/100 := rfl
    have hD : cartSubtotal cart * (dp / 100) < 0 :=
      mul_neg_of_pos_of_neg hS (by linarith)
    have hraw : cartSubtotal cart +
        cartSubtotal cart * BUSINESS_CONFIG.tax_rate <
        (cartSubtotal cart - cartSubtotal cart * (dp / 100)) +
          (cartSubtotal cart - cartSubtotal cart * (dp / 100)) *
            BUSINESS_CONFIG.tax_rate := by
      rw [hτ]
      linarith
    refine ⟨hraw, ?_⟩
    rw [calculate_totals_def, calculate_totals_def]
    apply roundTo2_mono
    have h0 : cartSubtotal cart * ((0 : ℚ) / 100) = 0 := by norm_num
    rw [h0]
    simpa using le_of_lt hraw

/-- Witness for C10 at the 25.00 cart, discounts 150 and -10, and two
configs differing only in `discount_max`. -/
theorem c10_witness :
    (BUSINESS_CONFIG.tax_rate =
      ({ tax_rate := 12/100, discount_max := 1, low_stock_threshold := 10 } :
        BusinessConfig).tax_rate) ∧
    (0 : ℚ) < cartSubtotal cartC10 ∧ (100 : ℚ) < 150 ∧ (-10 : ℚ) < 0 ∧
    calculate_totals BUSINESS_CONFIG cartC10 150 =
      calculate_totals
        ({ tax_rate := 12/100, discount_max := 1, low_stock_threshold := 10 } :
          BusinessConfig) cartC10 150 ∧
    (cartSubtotal cartC10 < cartSubtotal cartC10 * (150 / 100) ∧
      (cartSubtotal cartC10 - cartSubtotal cartC10 * (150 / 100)) +
        (cartSubtotal cartC10 - cartSubtotal cartC10 * (150 / 100)) *
          BUSINESS_CONFIG.tax_rate < 0 ∧
      (calculate_totals BUSINESS_CONFIG cartC10 150).subtotal ≤
        (calculate_totals BUSINESS_CONFIG cartC10 150).discount_amount ∧
      (calculate_totals BUSINESS_CONFIG cartC10 150).total_amount ≤ 0) ∧
    (cartSubtotal cartC10 +
        cartSubtotal cartC10 * BUSINESS_CONFIG.tax_rate <
        (cartSubtotal cartC10 - cartSubtotal cartC10 * ((-10) / 100)) +
          (cartSubtotal cartC10 - cartSubtotal cartC10 * ((-10) / 100)) *
            BUSINESS_CONFIG.tax_rate ∧
      (calculate_totals BUSINESS_CONFIG cartC10 0).total_amount ≤
        (calculate_totals BUSINESS_CONFIG cartC10 (-10)).total_amount) := by
  have h1 := c10_no_discount_bounds cartC10 150 BUSINESS_CONFIG
    { tax_rate := 12/100, discount_max := 1, low_stock_threshold := 10 }
  have h2 := c10_no_discount_bounds cartC10 (-10) BUSINESS_CONFIG
    BUSINESS_CONFIG
  have hS : (0 : ℚ) < cartSubtotal cartC10 := by
    norm_num [cartC10, cartSubtotal, CartItem.subtotal]
  exact ⟨rfl, hS, by norm_num, by norm_num, h1.1 rfl,
    h1.2.1 hS (by norm_num), h2.2.2 hS (by norm_num)⟩

lemma string_append_left_cancel {p a b : String} (h : p ++ a = p ++ b) :
    a = b := by
  have hd : (p ++ a).data = (p ++ b).data := by rw [h]
  simp [String.data_append] at hd
  exact String.ext hd

lemma list_isEmpty_false {α : Type} {l : List α} (h : l ≠ []) :
    l.isEmpty = false := by
  cases l with
  | nil => exact absurd rfl h
  | cons a l => rfl

lemma process_sale_insufficient (st : DBState) (cart : List CartItem)
    (cn cp : Option String) (dp : ℚ) (pm : String) (cid : Option ℕ)
    (d t : String) (faults : Faults) (bad : CartItem)
    (hne : cart ≠ []) (hfind : find_unavailable st cart = some bad) :
    process_sale st cart cn cp dp pm cid d t faults =
      (.error ("Insufficient stock for " ++ bad.product_name), st) := by
  unfold process_sale
  rw [list_isEmpty_false hne, hfind]
  rfl

lemma process_sale_run (st : DBState) (cart : List CartItem)
    (cn cp : Option String) (dp : ℚ) (pm : String) (cid : Option ℕ)
    (d t : String) (faults : Faults)
    (hne : cart ≠ []) (hfind : find_unavailable st cart = none)
    (hhdr : faults.headerFails = false) :
    process_sale st cart cn cp dp pm cid d t faults =
      (if (sale_items_loop st.next_sale_id
            (generate_sale_number st d t faults.countFails) cid faults
            (insertSale st (sale_header st cart cn cp dp pm cid d
              (generate_sale_number st d t faults.countFails))) cart 0).1
        then .ok st.next_sale_id else .error "Error processing sale",
       (sale_items_loop st.next_sale_id
          (generate_sale_number st d t faults.countFails) cid faults
          (insertSale st (sale_header st cart cn cp dp pm cid d
            (generate_sale_number st d t faults.countFails))) cart 0).2) := by
  unfold process_sale
  rw [list_isEmpty_false hne, hfind, hhdr]
  rfl

lemma process_sale_ok (st : DBState) (cart : List CartItem)
    (cn cp : Option String) (dp : ℚ) (pm : String) (cid : Option ℕ)
    (d t : String) (faults : Faults)
    (hne : cart ≠ []) (hfind : find_unavailable st cart = none)
    (hhdr : faults.headerFails = false)
    (hitems : ∀ i, faults.itemFails i = false) :
    process_sale st cart cn cp dp pm cid d t faults =
      (.ok st.next_sale_id,
       (sale_items_loop st.next_sale_id
          (generate_sale_number st d t faults.countFails) cid faults
          (insertSale st (sale_header st cart cn cp dp pm cid d
            (generate_sale_number st d t faults.countFails))) cart 0).2) := by
  rw [process_sale_run st cart cn cp dp pm cid d t faults hne hfind hhdr]
  rw [sale_items_loop_success _ _ _ _ hitems]
  rfl

/-- C4: a cart containing a line whose availability check fails makes
`process_sale` return failure naming an offending product (the first
failing line), and the returned state is exactly the input state: no
sale header, no sale items, no ledger rows, no stock change.  This
holds for any injected fault schedule, since the check precedes every
write. -/
theorem c4_process_sale_insufficient (st : DBState) (cart : List CartItem)
    (cn cp : Option String) (dp : ℚ) (pm : String) (cid : Option ℕ)
    (d t : String) (faults : Faults) (item : CartItem)
    (hmem : item ∈ cart)
    (hbad : check_stock_availability st item.product_id item.quantity
      = false) :
    ∃ bad, bad ∈ cart ∧
      check_stock_availability st bad.product_id bad.quantity = false ∧
      process_sale st cart cn cp dp pm cid d t faults =
        (.error ("Insufficient stock for " ++ bad.product_name), st) := by
  obtain ⟨bad, hfind, hmem', hb⟩ := find_unavailable_some st cart item hmem hbad
  exact ⟨bad, hmem', hb,
    process_sale_insufficient st cart cn cp dp pm cid d t faults bad
      (List.ne_nil_of_mem hmem) hfind⟩

def cartW4 : List CartItem := [⟨1, "Milk", "m1", 10, 9⟩]

/-- Witness for C4: product 1 holds 5 units, the cart requests 9. -/
theorem c4_witness :
    (⟨1, "Milk", "m1", 10, 9⟩ : CartItem) ∈ cartW4 ∧
    check_stock_availability stW1 1 9 = false ∧
    (∃ bad, bad ∈ cartW4 ∧
      check_stock_availability stW1 bad.product_id bad.quantity = false ∧
      process_sale stW1 cartW4 none none 0 "cash" (some 7) "20250101"
          "093000" noFaults =
        (.error ("Insufficient stock for " ++ bad.product_name), stW1)) :=
  ⟨List.mem_cons_self _ _, rfl,
    c4_process_sale_insufficient stW1 cartW4 none none 0 "cash" (some 7)
      "20250101" "093000" noFaults ⟨1, "Milk", "m1", 10, 9⟩
      (List.mem_cons_self _ _) rfl⟩

/-- C9: a product id matching no product row makes
`check_stock_availability` return `False` for every requested quantity,
so a cart naming it fails through the insufficient-stock path of
`process_sale` — the same message and unchanged state as an ordinary
stock shortage, not a distinct not-found failure. -/
theorem c9_missing_product (st : DBState) (pid : ℕ) (q : ℤ)
    (hnone : lookupStock st pid = none) :
    check_stock_availability st pid q = false ∧
    ∀ (cart : List CartItem) (item : CartItem), item ∈ cart →
      item.product_id = pid →
      ∀ (cn cp : Option String) (dp : ℚ) (pm : String) (cid : Option ℕ)
        (d t : String) (faults : Faults),
        ∃ bad, bad ∈ cart ∧
          check_stock_availability st bad.product_id bad.quantity = false ∧
          process_sale st cart cn cp dp pm cid d t faults =
            (.error ("Insufficient stock for " ++ bad.product_name), st) := by
  have hchk : ∀ q' : ℤ, check_stock_availability st pid q' = false := by
    intro q'
    unfold check_stock_availability
    rw [hnone]
  refine ⟨hchk q, ?_⟩
  intro cart item hmem hpid cn cp dp pm cid d t faults
  have hbad :
      check_stock_availability st item.product_id item.quantity = false := by
    rw [hpid]
    exact hchk _
  obtain ⟨bad, hfind, hmem', hb⟩ := find_unavailable_some st cart item hmem hbad
  exact ⟨bad, hmem', hb,
    process_sale_insufficient st cart cn cp dp pm cid d t faults bad
      (List.ne_nil_of_mem hmem) hfind⟩

/-- Witness for C9: `stW1` has no product 2. -/
theorem c9_witness :
    lookupStock stW1 2 = none ∧
    (check_stock_availability stW1 2 5 = false ∧
      ∀ (cart : List CartItem) (item : CartItem), item ∈ cart →
        item.product_id = 2 →
        ∀ (cn cp : Option String) (dp : ℚ) (pm : String) (cid : Option ℕ)
          (d t : String) (faults : Faults),
          ∃ bad, bad ∈ cart ∧
            check_stock_availability stW1 bad.product_id bad.quantity = false ∧
            process_sale stW1 cart cn cp dp pm cid d t faults =
              (.error ("Insufficient stock for " ++ bad.product_name), stW1)) :=
  ⟨rfl, c9_missing_product stW1 2 5 rfl⟩

def stC6b : DBState :=
  { products := [⟨1, 5⟩], transactions := [], sales := [], sale_items := [],
    next_sale_id := 2 }

/-- C6 counterexample: two distinct fallback invocations (different
states, so genuinely different calls) in the same second — same
`HHMMSS` rendering — return the identical sale number, so the fallback
does not guarantee that every two invocations differ. -/
theorem c6_counterexample :
    stW1 ≠ stC6b ∧
    generate_sale_number stW1 "20250101" "093000" true =
      generate_sale_number stC6b "20250101" "093000" true := by
  constructor
  · intro h
    have : stW1.next_sale_id = stC6b.next_sale_id := by rw [h]
    simp [stW1, stC6b] at this
  · rfl

/-- C6 amended: whenever the count query fails, `generate_sale_number`
falls back to `SALE-` + date + `HHMMSS`, and two fallback invocations
whose time strings differ return different numbers — but two fallback
invocations within the same second (equal `HHMMSS`) return the same
number, so the fallback does not guarantee uniqueness. -/
theorem c6_fallback_format (st st' : DBState) (d t t' : String)
    (hne : t ≠ t') :
    generate_sale_number st d t true = "SALE-" ++ d ++ "-" ++ t ∧
    generate_sale_number st d t true ≠
      generate_sale_number st' d t' true := by
  refine ⟨rfl, ?_⟩
  intro h
  have h' : ("SALE-" ++ d ++ "-") ++ t = ("SALE-" ++ d ++ "-") ++ t' := h
  exact hne (string_append_left_cancel h')

/-- Witness for C6 amended, at one-second-apart time strings. -/
theorem c6_witness :
    ("093000" : String) ≠ "093001" ∧
    (generate_sale_number stW1 "20250101" "093000" true =
        "SALE-" ++ "20250101" ++ "-" ++ "093000" ∧
      generate_sale_number stW1 "20250101" "093000" true ≠
        generate_sale_number stC6b "20250101" "093001" true) :=
  ⟨by decide,
    c6_fallback_format stW1 stC6b "20250101" "093000" "093001" (by decide)⟩

/-- C7: when the count query succeeds and `n` sales are already dated
today, `generate_sale_number` returns `SALE-` + date + `-` + the
4-digit zero-padded `n + 1`; in particular, starting from a day with no
sales, a processed sale is numbered `SALE-<date>-0001` and the next
generated number is `SALE-<date>-0002`. -/
theorem c7_sale_number_sequence (st : DBState) (d t t' : String) (n : ℕ)
    (cart : List CartItem) (cn cp : Option String) (dp : ℚ) (pm : String)
    (cid : Option ℕ) (hcount : countToday st d = n) :
    generate_sale_number st d t false = "SALE-" ++ d ++ "-" ++ pad4 (n + 1) ∧
    pad4 1 = "0001" ∧ pad4 2 = "0002" ∧
    (n = 0 → cart ≠ [] → find_unavailable st cart = none →
      (process_sale st cart cn cp dp pm cid d t noFaults).1 =
        .ok st.next_sale_id ∧
      (∃ hdr, (process_sale st cart cn cp dp pm cid d t noFaults).2.sales =
          st.sales ++ [hdr] ∧
        hdr.sale_number = "SALE-" ++ d ++ "-" ++ "0001" ∧
        hdr.sale_date = d) ∧
      generate_sale_number
        (process_sale st cart cn cp dp pm cid d t noFaults).2 d t' false =
        "SALE-" ++ d ++ "-" ++ "0002") := by
  subst hcount
  refine ⟨rfl, rfl, rfl, ?_⟩
  intro h0 hne hfind
  have hitems : ∀ i : ℕ, noFaults.itemFails i = false := fun _ => rfl
  have hps := process_sale_ok st cart cn cp dp pm cid d t noFaults hne hfind
    rfl hitems
  have hnum : generate_sale_number st d t noFaults.countFails =
      "SALE-" ++ d ++ "-" ++ "0001" := by
    show "SALE-" ++ d ++ "-" ++ pad4 (countToday st d + 1) = _
    rw [h0]
    rfl
  have hsalesloop :
      (sale_items_loop st.next_sale_id
        (generate_sale_number st d t noFaults.countFails) cid noFaults
        (insertSale st (sale_header st cart cn cp dp pm cid d
          (generate_sale_number st d t noFaults.countFails))) cart 0).2.sales
      = st.sales ++ [sale_header st cart cn cp dp pm cid d
          (generate_sale_number st d t noFaults.countFails)] := by
    rw [sale_items_loop_sales]
    rfl
  have hct : countToday
      (sale_items_loop st.next_sale_id
        (generate_sale_number st d t noFaults.countFails) cid noFaults
        (insertSale st (sale_header st cart cn cp dp pm cid d
          (generate_sale_number st d t noFaults.countFails))) cart 0).2 d
      = 1 := by
    unfold countToday
    rw [hsalesloop, List.filter_append, List.length_append]
    have h0' : (st.sales.filter fun s => s.sale_date = d).length = 0 := h0
    rw [h0']
    simp [sale_header]
  rw [hps]
  refine ⟨rfl, ⟨sale_header st cart cn cp dp pm cid d
    (generate_sale_number st d t noFaults.countFails), hsalesloop, ?_, rfl⟩,
    ?_⟩
  · exact hnum
  · show "SALE-" ++ d ++ "-" ++ pad4 (countToday
      (sale_items_loop st.next_sale_id
        (generate_sale_number st d t noFaults.countFails) cid noFaults
        (insertSale st (sale_header st cart cn cp dp pm cid d
          (generate_sale_number st d t noFaults.countFails))) cart 0).2 d + 1)
      = "SALE-" ++ d ++ "-" ++ "0002"
    rw [hct]
    rfl

def cartW7 : List CartItem := [⟨1, "Milk", "m1", 10, 2⟩]

/-- Witness for C7 on an empty day with a one-line available cart. -/
theorem c7_witness :
    countToday stW1 "20250101" = 0 ∧
    (generate_sale_number stW1 "20250101" "093000" false =
        "SALE-" ++ "20250101" ++ "-" ++ pad4 (0 + 1) ∧
      pad4 1 = "0001" ∧ pad4 2 = "0002" ∧
      ((0 : ℕ) = 0 → cartW7 ≠ [] →
        find_unavailable stW1 cartW7 = none →
        (process_sale stW1 cartW7 none none 0 "cash" (some 7) "20250101"
            "093000" noFaults).1 = .ok stW1.next_sale_id ∧
        (∃ hdr, (process_sale stW1 cartW7 none none 0 "cash" (some 7)
              "20250101" "093000" noFaults).2.sales =
            stW1.sales ++ [hdr] ∧
          hdr.sale_number = "SALE-" ++ "20250101" ++ "-" ++ "0001" ∧
          hdr.sale_date = "20250101") ∧
        generate_sale_number
          (process_sale stW1 cartW7 none none 0 "cash" (some 7) "20250101"
            "093000" noFaults).2 "20250101" "101500" false =
          "SALE-" ++ "20250101" ++ "-" ++ "0002")) :=
  ⟨rfl, c7_sale_number_sequence stW1 "20250101" "093000" "101500" 0 cartW7
    none none 0 "cash" (some 7) rfl⟩

def cartC5 : List CartItem := [⟨1, "Milk", "m1", 10, 2⟩]

def faultsC5 : Faults :=
  { countFails := false
    headerFails := false
    itemFails := fun _ => false
    stockUpdateFails := fun _ => true
    txInsertFails := fun _ => false }

/-- C5 counterexample: when the ledger update for the (only) cart line
fails after the header insert, `process_sale` still returns the sale id
— `update_stock` swallows its own exception and returns `False`, which
the caller discards — with no ledger row appended and the stock left
untouched; the claim's stated outcome (failure, `None`) does not occur. -/
theorem c5_counterexample :
    (process_sale stW1 cartC5 none none 0 "cash" (some 7) "20250101"
      "093000" faultsC5).1 = .ok 1 ∧
    (process_sale stW1 cartC5 none none 0 "cash" (some 7) "20250101"
      "093000" faultsC5).2.transactions = [] ∧
    lookupStock (process_sale stW1 cartC5 none none 0 "cash" (some 7)
      "20250101" "093000" faultsC5).2 1 = some 5 :=
  ⟨rfl, rfl, rfl⟩

/-- C5 amended: after the sale header is inserted, a failing sale-item
insert makes `process_sale` return failure while the header and the
fully-processed earlier cart lines (their item rows, ledger entries and
stock decrements) remain persisted — no compensating rollback; a
failing ledger update, by contrast, is swallowed (`update_stock`
catches the error and its `False` return is discarded), so
`process_sale` still returns the sale id. -/
theorem c5_partial_persistence (st : DBState) (cart : List CartItem)
    (cn cp : Option String) (dp : ℚ) (pm : String) (cid : Option ℕ)
    (d t : String) (faults : Faults) (k : ℕ)
    (hne : cart ≠ []) (hfind : find_unavailable st cart = none)
    (hhdr : faults.headerFails = false) :
    ((∀ i, faults.itemFails i = false) →
      (process_sale st cart cn cp dp pm cid d t faults).1 =
        .ok st.next_sale_id) ∧
    (k < cart.length → (∀ i, i < k → faults.itemFails i = false) →
      faults.itemFails k = true →
      process_sale st cart cn cp dp pm cid d t faults =
        (.error "Error processing sale",
         (sale_items_loop st.next_sale_id
            (generate_sale_number st d t faults.countFails) cid faults
            (insertSale st (sale_header st cart cn cp dp pm cid d
              (generate_sale_number st d t faults.countFails)))
            (cart.take k) 0).2) ∧
      (sale_items_loop st.next_sale_id
          (generate_sale_number st d t faults.countFails) cid faults
          (insertSale st (sale_header st cart cn cp dp pm cid d
            (generate_sale_number st d t faults.countFails)))
          (cart.take k) 0).2.sales =
        st.sales ++ [sale_header st cart cn cp dp pm cid d
          (generate_sale_number st d t faults.countFails)]) := by
  constructor
  · intro hitems
    rw [process_sale_ok st cart cn cp dp pm cid d t faults hne hfind hhdr
      hitems]
  · intro hk hprev hfail
    have hprev' : ∀ i, i < k → faults.itemFails (0 + i) = false := by
      intro i hi
      simpa using hprev i hi
    have hfail' : faults.itemFails (0 + k) = true := by simpa using hfail
    have habort := sale_items_loop_abort st.next_sale_id
      (generate_sale_number st d t faults.countFails) cid faults cart k
      (insertSale st (sale_header st cart cn cp dp pm cid d
        (generate_sale_number st d t faults.countFails))) 0 hk hprev' hfail'
    constructor
    · rw [process_sale_run st cart cn cp dp pm cid d t faults hne hfind hhdr,
        habort]
      rfl
    · rw [sale_items_loop_sales]
      rfl

/-- Witness for C5: one-line available cart; first run with a failing
ledger update (still returns the sale id), second run with the item
insert failing at index 0 (returns failure, header persisted). -/
theorem c5_witness :
    cartC5 ≠ [] ∧ find_unavailable stW1 cartC5 = none ∧
    faultsC5.headerFails = false ∧ (0 : ℕ) < cartC5.length ∧
    ((process_sale stW1 cartC5 none none 0 "cash" (some 7) "20250101"
        "093000" faultsC5).1 = .ok stW1.next_sale_id) ∧
    (process_sale stW1 cartC5 none none 0 "cash" (some 7) "20250101"
        "093000"
        { faultsC5 with itemFails := fun _ => true } =
      (.error "Error processing sale",
       (sale_items_loop stW1.next_sale_id
          (generate_sale_number stW1 "20250101" "093000"
            ({ faultsC5 with itemFails := fun _ => true } : Faults).countFails)
          (some 7) { faultsC5 with itemFails := fun _ => true }
          (insertSale stW1 (sale_header stW1 cartC5 none none 0 "cash"
            (some 7) "20250101"
            (generate_sale_number stW1 "20250101" "093000"
              ({ faultsC5 with itemFails := fun _ => true } :
                Faults).countFails)))
          (cartC5.take 0) 0).2) ∧
     (sale_items_loop stW1.next_sale_id
        (generate_sale_number stW1 "20250101" "093000"
          ({ faultsC5 with itemFails := fun _ => true } : Faults).countFails)
        (some 7) { faultsC5 with itemFails := fun _ => true }
        (insertSale stW1 (sale_header stW1 cartC5 none none 0 "cash"
          (some 7) "20250101"
          (generate_sale_number stW1 "20250101" "093000"
            ({ faultsC5 with itemFails := fun _ => true } :
              Faults).countFails)))
        (cartC5.take 0) 0).2.sales =
      stW1.sales ++ [sale_header stW1 cartC5 none none 0 "cash" (some 7)
        "20250101"
        (generate_sale_number stW1 "20250101" "093000"
          ({ faultsC5 with itemFails := fun _ => true } :
            Faults).countFails)]) := by
  have hne : cartC5 ≠ [] := by simp [cartC5]
  have h1 := c5_partial_persistence stW1 cartC5 none none 0 "cash" (some 7)
    "20250101" "093000" faultsC5 0 hne rfl rfl
  have h2 := c5_partial_persistence stW1 cartC5 none none 0 "cash" (some 7)
    "20250101" "093000" { faultsC5 with itemFails := fun _ => true } 0 hne
    rfl rfl
  exact ⟨hne, rfl, rfl, by decide,
    h1.1 (fun _ => rfl),
    h2.2 (by decide) (fun i hi => absurd hi (Nat.not_lt_zero i)) rfl⟩
